import Mathlib

/-!
Verification of the dispatch-and-buffering core of `src/script/printer/base_doc_printer.cc`
(TVM's `DocPrinter`): the kind-cascade dispatcher `PrintDoc`, the append entry
point `Append`, and the newline-normalizing accessor `GetString`.

The document node classes (`LiteralDocNode` … `ClassDocNode`) and the pure
virtual `PrintTypedDoc` overloads of the concrete renderer are declared in
`base_doc_printer.h` and implemented by subtypes, neither of which is part of
the sources; those parts are modelled from the spec where the file notes it.
-/

set_option autoImplicit false

namespace TVMPrinter

/-- Kind tag of a document node. One constructor per concrete `DocNode` class
tested by the cascade in `DocPrinter::PrintDoc`, in source order, plus
`UnknownDoc key`, which models a node whose runtime type is outside the
closed set (the TVM object system's type-key space is open); `key` is the
string its `GetTypeKey()` would return. -/
inductive DocKind where
  | LiteralDoc
  | IdDoc
  | AttrAccessDoc
  | IndexDoc
  | OperationDoc
  | CallDoc
  | LambdaDoc
  | ListDoc
  | TupleDoc
  | DictDoc
  | SliceDoc
  | StmtBlockDoc
  | AssignDoc
  | IfDoc
  | WhileDoc
  | ForDoc
  | ScopeDoc
  | ExprStmtDoc
  | AssertDoc
  | ReturnDoc
  | FunctionDoc
  | ClassDoc
  | UnknownDoc (key : String)
  deriving DecidableEq, Repr

/-- True exactly when the kind is one of the 22 classes the cascade tests for. -/
def DocKind.isKnown : DocKind → Bool
  | DocKind.UnknownDoc _ => false
  | _ => true

/-- The string `GetTypeKey()` returns for a node of this kind. Known kinds use
the `script.printer.` registry prefix of the TVM object system; an unknown
node reports the key it was registered with. -/
def DocKind.typeKey : DocKind → String
  | DocKind.LiteralDoc => "script.printer.LiteralDoc"
  | DocKind.IdDoc => "script.printer.IdDoc"
  | DocKind.AttrAccessDoc => "script.printer.AttrAccessDoc"
  | DocKind.IndexDoc => "script.printer.IndexDoc"
  | DocKind.OperationDoc => "script.printer.OperationDoc"
  | DocKind.CallDoc => "script.printer.CallDoc"
  | DocKind.LambdaDoc => "script.printer.LambdaDoc"
  | DocKind.ListDoc => "script.printer.ListDoc"
  | DocKind.TupleDoc => "script.printer.TupleDoc"
  | DocKind.DictDoc => "script.printer.DictDoc"
  | DocKind.SliceDoc => "script.printer.SliceDoc"
  | DocKind.StmtBlockDoc => "script.printer.StmtBlockDoc"
  | DocKind.AssignDoc => "script.printer.AssignDoc"
  | DocKind.IfDoc => "script.printer.IfDoc"
  | DocKind.WhileDoc => "script.printer.WhileDoc"
  | DocKind.ForDoc => "script.printer.ForDoc"
  | DocKind.ScopeDoc => "script.printer.ScopeDoc"
  | DocKind.ExprStmtDoc => "script.printer.ExprStmtDoc"
  | DocKind.AssertDoc => "script.printer.AssertDoc"
  | DocKind.ReturnDoc => "script.printer.ReturnDoc"
  | DocKind.FunctionDoc => "script.printer.FunctionDoc"
  | DocKind.ClassDoc => "script.printer.ClassDoc"
  | DocKind.UnknownDoc key => key

/-- A document node: its kind tag plus its kind-specific fields. The fields of
the `DocNode` classes are declared in the header (not in the sources) and are
never inspected by the dispatcher, only handed to the renderer, so they are
abstracted into one opaque `payload` string. -/
structure Doc where
  kind : DocKind
  payload : String
  deriving DecidableEq, Repr

/-- The printer state: the `indent_spaces_` field set by the constructor and
the `output_` stream the rendering operations write into. These are the only
data members `base_doc_printer.cc` touches. -/
structure DocPrinter where
  indent_spaces_ : Int
  output_ : String
  deriving DecidableEq, Repr

/-- The constructor `DocPrinter::DocPrinter(int indent_spaces)`: stores the
width; the `output_` stream starts empty. -/
def DocPrinter.new (indent_spaces : Int) : DocPrinter :=
  { indent_spaces_ := indent_spaces, output_ := "" }

/-- Writing a text fragment into the `output_` stream (`output_ << fragment`),
the only way rendering operations emit text. -/
def DocPrinter.printText (p : DocPrinter) (fragment : String) : DocPrinter :=
  { p with output_ := p.output_ ++ fragment }

/-- Modelled from the spec: the concrete renderer subtype. Its 22 pure virtual
`PrintTypedDoc` overloads are declared in the header and implemented outside
the sources; per the spec each rendering operation receives the node and is
solely responsible for the text it writes into the shared buffer, so each is
modelled as the fragment it produces for the node. -/
structure Renderer where
  printLiteralDoc : Doc → String
  printIdDoc : Doc → String
  printAttrAccessDoc : Doc → String
  printIndexDoc : Doc → String
  printOperationDoc : Doc → String
  printCallDoc : Doc → String
  printLambdaDoc : Doc → String
  printListDoc : Doc → String
  printTupleDoc : Doc → String
  printDictDoc : Doc → String
  printSliceDoc : Doc → String
  printStmtBlockDoc : Doc → String
  printAssignDoc : Doc → String
  printIfDoc : Doc → String
  printWhileDoc : Doc → String
  printForDoc : Doc → String
  printScopeDoc : Doc → String
  printExprStmtDoc : Doc → String
  printAssertDoc : Doc → String
  printReturnDoc : Doc → String
  printFunctionDoc : Doc → String
  printClassDoc : Doc → String

/-- The LOG(FATAL) abort at the end of the cascade: the diagnostic message and
the printer state at the moment the process dies. -/
structure FatalError where
  message : String
  state : DocPrinter
  deriving Repr

/-- Embedding of `DocPrinter::PrintDoc`: the type-test cascade. Each `doc.as<XDocNode>()`
test of the source becomes the arm for the corresponding kind tag, which
invokes the matching `PrintTypedDoc` overload and lets it write its fragment
into the buffer; the trailing `else` branch becomes the `UnknownDoc` arm,
aborting with the source's diagnostic `"Do not know how to print "` followed
by the node's type key. -/
def DocPrinter.PrintDoc (r : Renderer) (p : DocPrinter) (doc : Doc) :
    Except FatalError DocPrinter :=
  match doc.kind with
  | DocKind.LiteralDoc => Except.ok (p.printText (r.printLiteralDoc doc))
  | DocKind.IdDoc => Except.ok (p.printText (r.printIdDoc doc))
  | DocKind.AttrAccessDoc => Except.ok (p.printText (r.printAttrAccessDoc doc))
  | DocKind.IndexDoc => Except.ok (p.printText (r.printIndexDoc doc))
  | DocKind.OperationDoc => Except.ok (p.printText (r.printOperationDoc doc))
  | DocKind.CallDoc => Except.ok (p.printText (r.printCallDoc doc))
  | DocKind.LambdaDoc => Except.ok (p.printText (r.printLambdaDoc doc))
  | DocKind.ListDoc => Except.ok (p.printText (r.printListDoc doc))
  | DocKind.TupleDoc => Except.ok (p.printText (r.printTupleDoc doc))
  | DocKind.DictDoc => Except.ok (p.printText (r.printDictDoc doc))
  | DocKind.SliceDoc => Except.ok (p.printText (r.printSliceDoc doc))
  | DocKind.StmtBlockDoc => Except.ok (p.printText (r.printStmtBlockDoc doc))
  | DocKind.AssignDoc => Except.ok (p.printText (r.printAssignDoc doc))
  | DocKind.IfDoc => Except.ok (p.printText (r.printIfDoc doc))
  | DocKind.WhileDoc => Except.ok (p.printText (r.printWhileDoc doc))
  | DocKind.ForDoc => Except.ok (p.printText (r.printForDoc doc))
  | DocKind.ScopeDoc => Except.ok (p.printText (r.printScopeDoc doc))
  | DocKind.ExprStmtDoc => Except.ok (p.printText (r.printExprStmtDoc doc))
  | DocKind.AssertDoc => Except.ok (p.printText (r.printAssertDoc doc))
  | DocKind.ReturnDoc => Except.ok (p.printText (r.printReturnDoc doc))
  | DocKind.FunctionDoc => Except.ok (p.printText (r.printFunctionDoc doc))
  | DocKind.ClassDoc => Except.ok (p.printText (r.printClassDoc doc))
  | DocKind.UnknownDoc _ =>
      Except.error { message := "Do not know how to print " ++ doc.kind.typeKey, state := p }

/-- Embedding of `DocPrinter::Append`, whose body is just `PrintDoc(doc)`: the
public entry point forwards straight to the dispatcher. -/
def DocPrinter.Append (r : Renderer) (p : DocPrinter) (doc : Doc) :
    Except FatalError DocPrinter :=
  p.PrintDoc r doc

/-- Embedding of `DocPrinter::GetString() const`: copies the accumulated text and, when it
is non-empty and its last character is not a newline, pushes exactly one
newline onto the copy before returning it. -/
def DocPrinter.GetString (p : DocPrinter) : String :=
  let text := p.output_
  if !text.isEmpty && text.back != '\n' then text.push '\n' else text

/-- View of `GetString` as the source declares it: a `const` member. The call returns
the normalized string together with the printer state, which the `const`
qualifier (and the fact that `push_back` acts on a local copy) leaves
untouched. -/
def DocPrinter.GetStringM (p : DocPrinter) : String × DocPrinter :=
  (p.GetString, p)

/-- The text the matching rendering operation produces for a node: the fragment
appended to the buffer when the cascade dispatches the node (empty for an
unknown kind, which never reaches a rendering operation). -/
def renderOf (r : Renderer) (doc : Doc) : String :=
  match doc.kind with
  | DocKind.LiteralDoc => r.printLiteralDoc doc
  | DocKind.IdDoc => r.printIdDoc doc
  | DocKind.AttrAccessDoc => r.printAttrAccessDoc doc
  | DocKind.IndexDoc => r.printIndexDoc doc
  | DocKind.OperationDoc => r.printOperationDoc doc
  | DocKind.CallDoc => r.printCallDoc doc
  | DocKind.LambdaDoc => r.printLambdaDoc doc
  | DocKind.ListDoc => r.printListDoc doc
  | DocKind.TupleDoc => r.printTupleDoc doc
  | DocKind.DictDoc => r.printDictDoc doc
  | DocKind.SliceDoc => r.printSliceDoc doc
  | DocKind.StmtBlockDoc => r.printStmtBlockDoc doc
  | DocKind.AssignDoc => r.printAssignDoc doc
  | DocKind.IfDoc => r.printIfDoc doc
  | DocKind.WhileDoc => r.printWhileDoc doc
  | DocKind.ForDoc => r.printForDoc doc
  | DocKind.ScopeDoc => r.printScopeDoc doc
  | DocKind.ExprStmtDoc => r.printExprStmtDoc doc
  | DocKind.AssertDoc => r.printAssertDoc doc
  | DocKind.ReturnDoc => r.printReturnDoc doc
  | DocKind.FunctionDoc => r.printFunctionDoc doc
  | DocKind.ClassDoc => r.printClassDoc doc
  | DocKind.UnknownDoc _ => ""

/-- Appending a sequence of root nodes one after another, stopping at the first
fatal failure — the caller-side lifecycle of feeding top-level docs to
`Append`. -/
def appendAll (r : Renderer) (p : DocPrinter) : List Doc → Except FatalError DocPrinter
  | [] => Except.ok p
  | d :: ds =>
    match p.Append r d with
    | Except.ok p' => appendAll r p' ds
    | Except.error e => Except.error e

/-- Modelled from the spec: a minimal concrete renderer, used only as a
concrete instance for evaluation; every rendering operation emits the node's
payload verbatim (the spec's concrete scenario assumes the renderer emits
`x` for the identifier node `x` and `1` for the literal node `1`). -/
def specRenderer : Renderer where
  printLiteralDoc := fun d => d.payload
  printIdDoc := fun d => d.payload
  printAttrAccessDoc := fun d => d.payload
  printIndexDoc := fun d => d.payload
  printOperationDoc := fun d => d.payload
  printCallDoc := fun d => d.payload
  printLambdaDoc := fun d => d.payload
  printListDoc := fun d => d.payload
  printTupleDoc := fun d => d.payload
  printDictDoc := fun d => d.payload
  printSliceDoc := fun d => d.payload
  printStmtBlockDoc := fun d => d.payload
  printAssignDoc := fun d => d.payload
  printIfDoc := fun d => d.payload
  printWhileDoc := fun d => d.payload
  printForDoc := fun d => d.payload
  printScopeDoc := fun d => d.payload
  printExprStmtDoc := fun d => d.payload
  printAssertDoc := fun d => d.payload
  printReturnDoc := fun d => d.payload
  printFunctionDoc := fun d => d.payload
  printClassDoc := fun d => d.payload

/-- An identifier node for `x` (the spec's concrete scenario). -/
def idX : Doc :=
  { kind := DocKind.IdDoc, payload := "x" }

/-- A literal node for `1` (the spec's concrete scenario). -/
def litOne : Doc :=
  { kind := DocKind.LiteralDoc, payload := "1" }

/-- A synthetic node whose runtime kind is absent from the dispatcher's known
set, as in the spec's fatal-path test. -/
def mysteryDoc : Doc :=
  { kind := DocKind.UnknownDoc "script.printer.FancyDoc", payload := "" }

/-- Pushing a newline onto a string is appending the one-character string
consisting of a newline. -/
theorem push_newline_eq_append (s : String) : s.push '\n' = s ++ "\n" := by
  cases s; rfl

/-- Helper: on a node of known kind, the cascade reaches exactly the matching
arm and returns the printer with that arm's fragment written. -/
theorem printDoc_known (r : Renderer) (p : DocPrinter) (doc : Doc)
    (h : doc.kind.isKnown = true) :
    p.PrintDoc r doc = Except.ok (p.printText (renderOf r doc)) := by
  obtain ⟨k, pl⟩ := doc
  cases k <;> first
    | rfl
    | simp [DocKind.isKnown] at h

/-- Helper: a successful append leaves the indentation width unchanged. -/
theorem append_indent_eq (r : Renderer) (p p' : DocPrinter) (doc : Doc)
    (h : p.Append r doc = Except.ok p') : p'.indent_spaces_ = p.indent_spaces_ := by
  obtain ⟨k, pl⟩ := doc
  cases k
  case UnknownDoc key => simp [DocPrinter.Append, DocPrinter.PrintDoc] at h
  all_goals
    cases Except.ok.inj h
    rfl

/-- Helper: a successful sequence of appends leaves the indentation width
unchanged. -/
theorem appendAll_indent_eq (r : Renderer) (ds : List Doc) :
    ∀ p p' : DocPrinter, appendAll r p ds = Except.ok p' →
      p'.indent_spaces_ = p.indent_spaces_ := by
  induction ds with
  | nil =>
    intro p p' h
    cases Except.ok.inj h
    rfl
  | cons d ds ih =>
    intro p p' h
    simp only [appendAll] at h
    cases hd : p.Append r d with
    | ok q =>
      rw [hd] at h
      rw [ih q p' h, append_indent_eq r p q d hd]
    | error e =>
      rw [hd] at h
      cases h

/-- C1: for every document node whose kind tag belongs to the closed set of 22
known kinds, `Append` invokes exactly the one matching rendering operation —
the result is `ok` with exactly that operation's fragment appended to the
buffer — and never reaches the fatal failure branch. -/
theorem append_known_kind_dispatches (r : Renderer) (p : DocPrinter) (doc : Doc)
    (h : doc.kind.isKnown = true) :
    p.Append r doc =
      Except.ok { indent_spaces_ := p.indent_spaces_,
                  output_ := p.output_ ++ renderOf r doc } := by
  rw [DocPrinter.Append, printDoc_known r p doc h]
  rfl

/-- Witness for C1 at the identifier node `x` on a fresh printer. -/
theorem append_known_kind_dispatches_witness :
    idX.kind.isKnown = true ∧
      (DocPrinter.new 4).Append specRenderer idX =
        Except.ok { indent_spaces_ := 4, output_ := "" ++ renderOf specRenderer idX } :=
  ⟨by decide, append_known_kind_dispatches specRenderer (DocPrinter.new 4) idX (by decide)⟩

/-- C2: for every document node whose kind tag is not among the dispatcher's
known set, `Append` takes the fatal branch — it returns the fatal outcome, not
a normal result — with a diagnostic naming the offending kind, on every such
input (the model is a function, so the behavior is deterministic). -/
theorem append_unknown_kind_fatal (r : Renderer) (p : DocPrinter) (key payload : String) :
    p.Append r { kind := DocKind.UnknownDoc key, payload := payload } =
      Except.error { message := "Do not know how to print " ++ key, state := p } :=
  rfl

/-- C3: on a non-empty buffer, `GetString` appends exactly one newline when the
last character is not a newline, and returns the buffer unchanged when the
last character already is a newline. -/
theorem getString_nonempty_normalizes (p : DocPrinter) (h : p.output_ ≠ "") :
    (p.output_.back ≠ '\n' → p.GetString = p.output_ ++ "\n") ∧
      (p.output_.back = '\n' → p.GetString = p.output_) := by
  constructor
  · intro hb
    have hc : (!p.output_.isEmpty && p.output_.back != '\n') = true := by
      simp only [Bool.and_eq_true, Bool.not_eq_true', bne_iff_ne]
      exact ⟨by rw [Bool.eq_false_iff]; simpa [String.isEmpty_iff] using h, hb⟩
    simp [DocPrinter.GetString, hc, push_newline_eq_append]
  · intro hb
    simp [DocPrinter.GetString, hb]

/-- Witness for C3 at the buffers `"x1"` (no trailing newline) and `"x1\n"`
(already newline-terminated). -/
theorem getString_nonempty_normalizes_witness :
    (DocPrinter.mk 4 "x1").GetString = "x1" ++ "\n" ∧
      (DocPrinter.mk 4 "x1\n").GetString = "x1\n" :=
  ⟨(getString_nonempty_normalizes ⟨4, "x1"⟩ (by decide)).1 (by decide),
   (getString_nonempty_normalizes ⟨4, "x1\n"⟩ (by decide)).2 (by decide)⟩

/-- C4: `GetString` on a printer whose buffer is empty returns the empty
string; no newline is force-appended. -/
theorem getString_empty_buffer (p : DocPrinter) (h : p.output_ = "") :
    p.GetString = "" := by
  simp only [DocPrinter.GetString, h]
  rfl

/-- Witness for C4 on a freshly constructed printer. -/
theorem getString_empty_buffer_witness : (DocPrinter.new 4).GetString = "" :=
  getString_empty_buffer (DocPrinter.new 4) rfl

/-- C5: `GetString` is a pure read — two successive calls return identical
strings, and the buffer after a call equals the buffer before it; the
newline is added to the returned copy only. -/
theorem getString_pure_idempotent (p : DocPrinter) :
    (p.GetStringM.2.GetStringM).1 = p.GetStringM.1 ∧
      p.GetStringM.2.output_ = p.output_ :=
  ⟨rfl, rfl⟩

/-- C6: sibling ordering — appending node `a` then node `b`, both of known
kind, leaves the buffer equal to its previous contents followed by the full
rendered text of `a`, immediately followed by the full rendered text of `b`. -/
theorem append_sibling_ordering (r : Renderer) (p p1 p2 : DocPrinter) (a b : Doc)
    (ha : a.kind.isKnown = true) (hb : b.kind.isKnown = true)
    (h1 : p.Append r a = Except.ok p1) (h2 : p1.Append r b = Except.ok p2) :
    p2.output_ = p.output_ ++ renderOf r a ++ renderOf r b := by
  rw [DocPrinter.Append, printDoc_known r p a ha] at h1
  rw [DocPrinter.Append, printDoc_known r p1 b hb] at h2
  cases Except.ok.inj h1
  cases Except.ok.inj h2
  rfl

/-- Witness for C6: identifier `x` then literal `1` on a fresh printer. -/
theorem append_sibling_ordering_witness :
    (DocPrinter.mk 4 "x1").output_ =
      (DocPrinter.new 4).output_ ++ renderOf specRenderer idX ++ renderOf specRenderer litOne :=
  append_sibling_ordering specRenderer (DocPrinter.new 4) ⟨4, "x"⟩ ⟨4, "x1"⟩
    idX litOne (by decide) (by decide) rfl rfl

/-- C7: the buffer is append-only — every `Append` call that completes leaves
the previous buffer contents as a prefix of the new contents (the old text
extended by some suffix, never removed or rewritten). -/
theorem append_preserves_output (r : Renderer) (p p' : DocPrinter) (doc : Doc)
    (h : p.Append r doc = Except.ok p') :
    ∃ s, p'.output_ = p.output_ ++ s := by
  obtain ⟨k, pl⟩ := doc
  cases k
  case UnknownDoc key => simp [DocPrinter.Append, DocPrinter.PrintDoc] at h
  all_goals
    cases Except.ok.inj h
    exact ⟨_, rfl⟩

/-- Witness for C7 at the identifier node `x` on a fresh printer. -/
theorem append_preserves_output_witness :
    ∃ s, (DocPrinter.mk 4 "x").output_ = (DocPrinter.new 4).output_ ++ s :=
  append_preserves_output specRenderer (DocPrinter.new 4) ⟨4, "x"⟩ idX rfl

/-- C8: the indentation width is fixed at construction — after any sequence of
appends that completes, and a `GetString` call after them, the stored width
still equals the width the printer was constructed with. -/
theorem indent_width_fixed (r : Renderer) (w : Int) (ds : List Doc) (p' : DocPrinter)
    (h : appendAll r (DocPrinter.new w) ds = Except.ok p') :
    p'.indent_spaces_ = w ∧ (p'.GetStringM.2).indent_spaces_ = w := by
  have hw := appendAll_indent_eq r ds (DocPrinter.new w) p' h
  exact ⟨hw, hw⟩

/-- Witness for C8: two appends on a printer constructed with width 4. -/
theorem indent_width_fixed_witness :
    (DocPrinter.mk 4 "x1").indent_spaces_ = 4 ∧
      ((DocPrinter.mk 4 "x1").GetStringM.2).indent_spaces_ = 4 :=
  indent_width_fixed specRenderer 4 [idX, litOne] ⟨4, "x1"⟩ rfl

/-- C9: on a fresh printer, appending the identifier node for `x` and then the
literal node for `1`, with a renderer that emits `x` and `1` for those nodes,
makes `GetString` return exactly the string `x1` followed by one newline. -/
theorem append_id_then_literal_scenario (r : Renderer) (w : Int)
    (hx : r.printIdDoc idX = "x") (h1 : r.printLiteralDoc litOne = "1") :
    ∃ p1 p2, (DocPrinter.new w).Append r idX = Except.ok p1 ∧
      p1.Append r litOne = Except.ok p2 ∧ p2.GetString = "x1\n" := by
  refine ⟨_, _, rfl, rfl, ?_⟩
  show (((DocPrinter.new w).printText (r.printIdDoc idX)).printText
      (r.printLiteralDoc litOne)).GetString = "x1\n"
  rw [hx, h1]
  rfl

/-- Witness for C9 with the concrete renderer at width 4. -/
theorem append_id_then_literal_scenario_witness :
    ∃ p1 p2, (DocPrinter.new 4).Append specRenderer idX = Except.ok p1 ∧
      p1.Append specRenderer litOne = Except.ok p2 ∧ p2.GetString = "x1\n" :=
  append_id_then_literal_scenario specRenderer 4 rfl rfl

/-- C10: error atomicity — when `Append` is called on a node of unknown kind,
the fatal failure carries a buffer equal to the buffer before the call: no
text has been written at the moment of failure. -/
theorem append_unknown_atomic (r : Renderer) (p : DocPrinter) (doc : Doc)
    (h : doc.kind.isKnown = false) :
    ∃ e, p.Append r doc = Except.error e ∧ e.state.output_ = p.output_ := by
  obtain ⟨k, pl⟩ := doc
  cases k <;> simp [DocKind.isKnown] at h
  exact ⟨_, rfl, rfl⟩

/-- Witness for C10 at a synthetic unknown-kind node on a non-empty buffer. -/
theorem append_unknown_atomic_witness :
    ∃ e, (DocPrinter.mk 4 "x").Append specRenderer mysteryDoc = Except.error e ∧
      e.state.output_ = (DocPrinter.mk 4 "x").output_ :=
  append_unknown_atomic specRenderer ⟨4, "x"⟩ mysteryDoc rfl

end TVMPrinter
